import Mathlib

/-!
Verification of the AI Trip Planner core against its specification.

The development shallowly embeds the Python sources:
  agents.py          : analyze_weather_node, generate_alternatives_node, generate_trip_plan
  app.py             : the three-step Streamlit workflow (session-state transitions)
  ui_components.py   : render_itinerary_tabs post-processing of the itinerary text
  config.py          : session-state initialisation

Machine-level conventions: Python strings are Lean Strings (lists of Chars);
json.loads is modelled by a character-level tokenizer plus a token parser
(numbers are kept as their lexemes, since the program never computes with
them); exceptions are modelled by Except / Option results.
-/

namespace TripPlanner

/-! ### Python string primitives -/

/-- JSON whitespace accepted by the json.loads scanner: space, tab, LF, CR. -/
def isJsonWs (c : Char) : Bool :=
  c = ' ' || c = '\t' || c = '\n' || c = '\r'

/-- ASCII whitespace stripped by Python str.strip(): space, tab, LF, CR,
vertical tab, form feed.  (Unicode whitespace is not modelled; none of the
claims involves it.) -/
def isPyWs (c : Char) : Bool :=
  c = ' ' || c = '\t' || c = '\n' || c = '\r' || c = '\x0b' || c = '\x0c'

/-- Does the pattern occur at the head of the list (Python startswith at 0)? -/
def startsWithChars : List Char → List Char → Bool
  | [], _ => true
  | _ :: _, [] => false
  | p :: ps, c :: cs => p = c && startsWithChars ps cs

/-- Does the pattern occur anywhere in the list (Python substring test)? -/
def occursB (old : List Char) : List Char → Bool
  | [] => startsWithChars old []
  | c :: cs => startsWithChars old (c :: cs) || occursB old cs

/-- Python s.replace(old, new, 1): replace the leftmost occurrence only. -/
def replOnce (old new : List Char) : List Char → List Char
  | [] => []
  | c :: cs =>
    if startsWithChars old (c :: cs) then new ++ (c :: cs).drop old.length
    else c :: replOnce old new cs

/-- Worker for Python s.replace(old, new): the Nat counts characters already
matched by a replacement that must still be skipped without being copied. -/
def replAllAux (old new : List Char) : Nat → List Char → List Char
  | _ + 1, [] => []
  | k + 1, _ :: cs => replAllAux old new k cs
  | 0, [] => []
  | 0, c :: cs =>
    if startsWithChars old (c :: cs) then
      new ++ replAllAux old new (old.length - 1) cs
    else c :: replAllAux old new 0 cs

/-- Python s.replace(old, new): replace every occurrence, left to right,
non-overlapping. -/
def replAll (old new s : List Char) : List Char := replAllAux old new 0 s

/-- Python str.strip() on the right. -/
def stripRight (l : List Char) : List Char := (l.reverse.dropWhile isPyWs).reverse

/-- Python str.strip() on both ends, at the character-list level. -/
def stripBoth (l : List Char) : List Char := stripRight (l.dropWhile isPyWs)

/-- Python str.strip(). -/
def pyStrip (s : String) : String := ⟨stripBoth s.data⟩

/-- Python str.startswith. -/
def pyStartsWith (s pat : String) : Bool := startsWithChars pat.data s.data

/-- Python s.replace(old, new, 1) on Strings. -/
def pyReplaceOnce (s old new : String) : String := ⟨replOnce old.data new.data s.data⟩

/-- Python s.replace(old, new) on Strings. -/
def pyReplaceAll (s old new : String) : String := ⟨replAll old.data new.data s.data⟩

/-! ### Basic lemmas about the primitives -/

theorem startsWithChars_append_self (old rest : List Char) :
    startsWithChars old (old ++ rest) = true := by
  induction old with
  | nil => rfl
  | cons p ps ih => simp [startsWithChars, ih]

theorem startsWithChars_of_longer (o1 o2 s : List Char) :
    startsWithChars (o1 ++ o2) s = true → startsWithChars o1 s = true := by
  induction o1 generalizing s with
  | nil => intro; rfl
  | cons p ps ih =>
    intro h
    cases s with
    | nil => simp [startsWithChars] at h
    | cons c cs =>
      simp only [List.cons_append, startsWithChars, Bool.and_eq_true] at h ⊢
      exact ⟨h.1, ih cs h.2⟩

theorem occursB_tail (old : List Char) (c : Char) (cs : List Char)
    (h : occursB old (c :: cs) = false) : occursB old cs = false := by
  simp only [occursB, Bool.or_eq_false_iff] at h
  exact h.2

theorem not_startsWith_of_not_occurs (old s : List Char)
    (h : occursB old s = false) : startsWithChars old s = false := by
  cases s with
  | nil => simpa [occursB] using h
  | cons c cs =>
    simp only [occursB, Bool.or_eq_false_iff] at h
    exact h.1

theorem occursB_suffix (old a b : List Char)
    (h : occursB old (a ++ b) = false) : occursB old b = false := by
  induction a with
  | nil => exact h
  | cons c cs ih =>
    exact ih (occursB_tail old c (cs ++ b) h)

/-- Skipping k characters with the replace worker just drops into the tail. -/
theorem replAllAux_skip (old new : List Char) (t r : List Char) :
    replAllAux old new t.length (t ++ r) = replAllAux old new 0 r := by
  induction t with
  | nil => rfl
  | cons c cs ih => simpa [replAllAux] using ih

theorem replAll_nil (old new : List Char) : replAll old new [] = [] := rfl

theorem replAll_cons_neg (old new : List Char) (c : Char) (cs : List Char)
    (h : startsWithChars old (c :: cs) = false) :
    replAll old new (c :: cs) = c :: replAll old new cs := by
  simp [replAll, replAllAux, h]

/-- Replacing at a position where the pattern sits at the head. -/
theorem replAll_head_hit (p : Char) (ps new rest : List Char) :
    replAll (p :: ps) new ((p :: ps) ++ rest) = new ++ replAll (p :: ps) new rest := by
  have hs : startsWithChars (p :: ps) ((p :: ps) ++ rest) = true :=
    startsWithChars_append_self _ _
  show replAllAux (p :: ps) new 0 (p :: (ps ++ rest)) = _
  rw [replAllAux, if_pos]
  · have : (p :: ps).length - 1 = ps.length := by simp
    rw [this, replAllAux_skip]
    rfl
  · simpa using hs

theorem replAll_of_not_occurs (old new s : List Char)
    (h : occursB old s = false) : replAll old new s = s := by
  induction s with
  | nil => rfl
  | cons c cs ih =>
    have h1 : startsWithChars old (c :: cs) = false := not_startsWith_of_not_occurs _ _ h
    rw [replAll_cons_neg _ _ _ _ h1, ih (occursB_tail _ _ _ h)]

theorem replOnce_of_not_occurs (old new s : List Char)
    (h : occursB old s = false) : replOnce old new s = s := by
  induction s with
  | nil => rfl
  | cons c cs ih =>
    have h1 : startsWithChars old (c :: cs) = false := not_startsWith_of_not_occurs _ _ h
    simp [replOnce, h1, ih (occursB_tail _ _ _ h)]

theorem replOnce_head_hit (p : Char) (ps new rest : List Char) :
    replOnce (p :: ps) new ((p :: ps) ++ rest) = new ++ rest := by
  have hs : startsWithChars (p :: ps) ((p :: ps) ++ rest) = true :=
    startsWithChars_append_self _ _
  show replOnce (p :: ps) new (p :: (ps ++ rest)) = _
  rw [replOnce, if_pos]
  · simp
  · simpa using hs

/-! ### Tokenizer for json.loads

The scanner of Python's json module is modelled as a character DFA that
produces a token stream.  Atoms (numbers and the keywords true / false /
null / NaN / Infinity / -Infinity, the latter three being CPython
extensions) are lexed as maximal runs of atom characters and validated when
the run ends; this agrees with json.loads at the level of
success-or-failure of the whole document, which is the only level the
program observes. -/

/-- Characters that may appear in a number or keyword atom. -/
def isAtomChar (c : Char) : Bool :=
  c.isAlpha || c.isDigit || c = '+' || c = '-' || c = '.'

/-- Drop a run of decimal digits. -/
def dropDigits : List Char → List Char
  | [] => []
  | c :: cs => if c.isDigit then dropDigits cs else c :: cs

/-- One or more digits, ending the atom. -/
def digitsEnd : List Char → Bool
  | [] => false
  | c :: cs => c.isDigit && dropDigits cs = []

/-- Optional exponent part of a JSON number, then end of atom. -/
def checkExp : List Char → Bool
  | [] => true
  | 'e' :: r =>
    match r with
    | '+' :: r2 => digitsEnd r2
    | '-' :: r2 => digitsEnd r2
    | r2 => digitsEnd r2
  | 'E' :: r =>
    match r with
    | '+' :: r2 => digitsEnd r2
    | '-' :: r2 => digitsEnd r2
    | r2 => digitsEnd r2
  | _ => false

/-- Optional fraction part of a JSON number, then exponent, then end. -/
def checkFrac : List Char → Bool
  | '.' :: r =>
    match r with
    | c :: cs => c.isDigit && checkExp (dropDigits cs)
    | [] => false
  | r => checkExp r

/-- Integer part of a JSON number: 0, or a nonzero digit then digits. -/
def validNumCore : List Char → Bool
  | [] => false
  | '0' :: r => checkFrac r
  | c :: r => if c.isDigit then checkFrac (dropDigits r) else false

/-- The JSON number grammar -?(0|[1-9][0-9]*)(.[0-9]+)?([eE][+-]?[0-9]+)? . -/
def validNum : List Char → Bool
  | '-' :: r => validNumCore r
  | r => validNumCore r

/-- Tokens of the json.loads scanner. -/
inductive JTok where
  | lbrace | rbrace | lbrack | rbrack | colon | comma
  | tru | fls | nul
  | num (lex : String)
  | str (s : String)
deriving DecidableEq

/-- Classify a finished atom: keyword, special constant, or number. -/
def classifyAtom (acc : List Char) : Option JTok :=
  if acc = "true".data then some .tru
  else if acc = "false".data then some .fls
  else if acc = "null".data then some .nul
  else if acc = "NaN".data then some (.num ⟨acc⟩)
  else if acc = "Infinity".data then some (.num ⟨acc⟩)
  else if acc = "-Infinity".data then some (.num ⟨acc⟩)
  else if validNum acc then some (.num ⟨acc⟩)
  else none

/-- Modes of the scanning DFA. -/
inductive TkMode where
  | top
  | atom (acc : List Char)
  | instr (acc : List Char)
  | esc (acc : List Char)
  | hex4 (acc : List Char) (pending : List Char)
  | err
deriving DecidableEq

/-- Scanner step outside any token. -/
def tkStepTop (c : Char) : TkMode × List JTok :=
  if isJsonWs c then (.top, [])
  else if c = '\x7b' then (.top, [.lbrace])
  else if c = '\x7d' then (.top, [.rbrace])
  else if c = '[' then (.top, [.lbrack])
  else if c = ']' then (.top, [.rbrack])
  else if c = ':' then (.top, [.colon])
  else if c = ',' then (.top, [.comma])
  else if c = '\"' then (.instr [], [])
  else if isAtomChar c then (.atom [c], [])
  else (.err, [])

/-- Value of a one-character escape in a JSON string literal. -/
def escChar (c : Char) : Option Char :=
  if c = '\"' then some '\"'
  else if c = '\\' then some '\\'
  else if c = '/' then some '/'
  else if c = 'b' then some '\x08'
  else if c = 'f' then some '\x0c'
  else if c = 'n' then some '\n'
  else if c = 'r' then some '\r'
  else if c = 't' then some '\t'
  else none

def isHexDigit (c : Char) : Bool :=
  c.isDigit || ('a' ≤ c && c ≤ 'f') || ('A' ≤ c && c ≤ 'F')

def hexVal (c : Char) : Nat :=
  if c.isDigit then c.toNat - '0'.toNat
  else if 'a' ≤ c && c ≤ 'f' then c.toNat - 'a'.toNat + 10
  else c.toNat - 'A'.toNat + 10

def hexListVal (l : List Char) : Nat := l.foldl (fun n c => 16 * n + hexVal c) 0

/-- One step of the scanning DFA: next mode and emitted tokens.  Unicode
escapes are decoded as a single code point (surrogate-pair recombination is
not modelled; no claim depends on it). -/
def tkStep : TkMode → Char → TkMode × List JTok
  | .top, c => tkStepTop c
  | .atom acc, c =>
    if isAtomChar c then (.atom (acc ++ [c]), [])
    else
      match classifyAtom acc with
      | some t => ((tkStepTop c).1, t :: (tkStepTop c).2)
      | none => (.err, [])
  | .instr acc, c =>
    if c = '\"' then (.top, [.str ⟨acc⟩])
    else if c = '\\' then (.esc acc, [])
    else if c.toNat < 32 then (.err, [])
    else (.instr (acc ++ [c]), [])
  | .esc acc, c =>
    if c = 'u' then (.hex4 acc [], [])
    else
      match escChar c with
      | some d => (.instr (acc ++ [d]), [])
      | none => (.err, [])
  | .hex4 acc pend, c =>
    if isHexDigit c then
      if pend.length = 3 then (.instr (acc ++ [Char.ofNat (hexListVal (pend ++ [c]))]), [])
      else (.hex4 acc (pend ++ [c]), [])
    else (.err, [])
  | .err, _ => (.err, [])

/-- Finishing the input: only the outside-token and finished-atom modes are
legal end states. -/
def tkFinal : TkMode → Option (List JTok)
  | .top => some []
  | .atom acc => (classifyAtom acc).map ([·])
  | _ => none

/-- Run the scanner from a mode over the remaining characters. -/
def tkRun : TkMode → List Char → Option (List JTok)
  | m, [] => tkFinal m
  | m, c :: cs => (tkRun (tkStep m c).1 cs).map ((tkStep m c).2 ++ ·)

/-- The token stream of a document, or none on a lexical error. -/
def tokenize (s : String) : Option (List JTok) := tkRun .top s.data

/-! ### JSON values and the token parser -/

/-- JSON values as produced by json.loads.  Numbers are kept as their
source lexemes: the program never computes with them, it only stores and
compares parsed values. -/
inductive Json where
  | null
  | bool (b : Bool)
  | num (lex : String)
  | str (s : String)
  | arr (elems : List Json)
  | obj (mems : List (String × Json))

mutual

/-- Parse one JSON value from the token stream (fueled recursion; the fuel
supplied by json_loads is always sufficient). -/
def parseVal : Nat → List JTok → Option (Json × List JTok)
  | 0, _ => none
  | _ + 1, [] => none
  | f + 1, t :: ts =>
    match t with
    | .nul => some (.null, ts)
    | .tru => some (.bool true, ts)
    | .fls => some (.bool false, ts)
    | .num lex => some (.num lex, ts)
    | .str s => some (.str s, ts)
    | .lbrack =>
      match ts with
      | .rbrack :: ts2 => some (.arr [], ts2)
      | _ => (parseElems f ts).map (fun p => (.arr p.1, p.2))
    | .lbrace =>
      match ts with
      | .rbrace :: ts2 => some (.obj [], ts2)
      | _ => (parseMems f ts).map (fun p => (.obj p.1, p.2))
    | _ => none

/-- Parse the elements of a nonempty array, up to and including the
closing bracket. -/
def parseElems : Nat → List JTok → Option (List Json × List JTok)
  | 0, _ => none
  | f + 1, ts =>
    (parseVal f ts).bind fun p =>
      match p.2 with
      | .comma :: ts2 => (parseElems f ts2).map (fun q => (p.1 :: q.1, q.2))
      | .rbrack :: ts2 => some ([p.1], ts2)
      | _ => none

/-- Parse the members of a nonempty object, up to and including the
closing brace. -/
def parseMems : Nat → List JTok → Option (List (String × Json) × List JTok)
  | 0, _ => none
  | f + 1, .str k :: .colon :: ts =>
    (parseVal f ts).bind fun p =>
      match p.2 with
      | .comma :: ts2 => (parseMems f ts2).map (fun q => ((k, p.1) :: q.1, q.2))
      | .rbrace :: ts2 => some ([(k, p.1)], ts2)
      | _ => none
  | _ + 1, _ => none

end

/-- Python json.loads: tokenize, parse one value, and require the whole
document to be consumed ("Extra data" otherwise).  none models a raised
json.JSONDecodeError. -/
def json_loads (s : String) : Option Json :=
  (tokenize s).bind fun ts =>
    match parseVal (2 * ts.length + 2) ts with
    | some (v, []) => some v
    | _ => none

/-- Python dict lookup on a parsed object.  json.loads builds a dict, so a
duplicated key keeps its last binding. -/
def pyGet (mems : List (String × Json)) (k : String) : Option Json :=
  mems.foldl (fun acc p => if p.1 = k then some p.2 else acc) none

/-- Python equality of an arbitrary parsed value with a string literal:
true exactly when the value is that string, false for every other value of
any type. -/
def pyEqStr (j : Json) (s : String) : Bool :=
  match j with
  | .str t => t = s
  | _ => false

/-! ### agents.py: the two graph nodes

A call to llm.invoke is modelled by its outcome: .ok content for a
delivered response (response.content as a string), .error for any raised
exception (network fault, missing content attribute, and so on).  The node
bodies are translated from agents.py lines 33-101 and 117-182. -/

/-- WeatherDecisionState of agents.py.  The four decision fields hold
whatever json.loads produced for them, matching the unchecked Python
assignments (the TypedDict annotations are not enforced at runtime). -/
structure WeatherDecisionState where
  weather_data : String
  destination : String
  travel_date : String
  decision : Json
  reasoning : Json
  concerns : Json
  recommendation : Json

/-- AlternativeState of agents.py.  The reason field receives
decision["reasoning"], which is whatever json_loads produced, so it is a
Json value; it is only interpolated into the prompt and never affects the
parsed result. -/
structure AlternativeState where
  original_destination : String
  reason : Json
  starting_city : String
  travel_date : String
  alternatives : Json

/-- Response cleaning shared verbatim by both nodes (agents.py lines 66-70
and 157-165): strip, then, when the text starts with a fence marker,
delete the first occurrence of a fenced json tag and every remaining fence
marker.  The elif branch of the source repeats the same condition and is
unreachable. -/
def cleanResponse (raw : String) : String :=
  let t := pyStrip raw
  if pyStartsWith t "```" then pyReplaceAll (pyReplaceOnce t "```json" "") "```" ""
  else t

/-- Fallback written by the except-json.JSONDecodeError branch
(agents.py lines 84-92). -/
def parseFailFallback (st : WeatherDecisionState) : WeatherDecisionState :=
  { st with
    decision := .str "SUITABLE"
    reasoning := .str "Unable to parse weather analysis, proceeding with caution"
    concerns := .arr []
    recommendation := .str "Review weather data manually before traveling" }

/-- Fallback written by the except-Exception branch (agents.py lines
94-101). -/
def analysisErrorFallback (st : WeatherDecisionState) : WeatherDecisionState :=
  { st with
    decision := .str "SUITABLE"
    reasoning := .str "Unable to analyze weather, proceeding with caution"
    concerns := .arr []
    recommendation := .str "Review weather data manually" }

/-- agents.py analyze_weather_node.  An invoke fault lands in the
except-Exception branch; a json.loads failure lands in the
except-json.JSONDecodeError branch; a parse that yields a non-object makes
the first .get call raise AttributeError, which the except-Exception branch
catches after no state field has been written. -/
def analyze_weather_node (st : WeatherDecisionState) (resp : Except String String) :
    WeatherDecisionState :=
  match resp with
  | .error _ => analysisErrorFallback st
  | .ok content =>
    match json_loads (cleanResponse content) with
    | none => parseFailFallback st
    | some (.obj mems) =>
      { st with
        decision := (pyGet mems "decision").getD (.str "SUITABLE")
        reasoning := (pyGet mems "reasoning").getD (.str "Weather conditions analyzed")
        concerns := (pyGet mems "concerns").getD (.arr [])
        recommendation := (pyGet mems "recommendation").getD (.str "Proceed with your trip") }
    | some _ => analysisErrorFallback st

/-- agents.py generate_alternatives_node: same cleaning and parsing, and
every failure path writes an empty list into the alternatives field. -/
def generate_alternatives_node (st : AlternativeState) (resp : Except String String) :
    AlternativeState :=
  match resp with
  | .error _ => { st with alternatives := .arr [] }
  | .ok content =>
    match json_loads (cleanResponse content) with
    | none => { st with alternatives := .arr [] }
    | some (.obj mems) => { st with alternatives := (pyGet mems "alternatives").getD (.arr []) }
    | some _ => { st with alternatives := .arr [] }

/-- Modelled from the spec: app.py imports agent_weather_decision from
agents, but no definition appears in the sources.  Per spec section 4.2
(judge(weatherText, destination, date) -> SuitabilityDecision) it runs the
single-node weather decision graph, that is analyze_weather_node, on a
fresh state and returns the resulting decision record.  The initial values
of the four decision fields are irrelevant: the node overwrites all of
them on every path. -/
def agent_weather_decision (weather dest date : String) (resp : Except String String) :
    WeatherDecisionState :=
  analyze_weather_node
    { weather_data := weather, destination := dest, travel_date := date,
      decision := .null, reasoning := .null, concerns := .null, recommendation := .null }
    resp

/-- Modelled from the spec: app.py imports agent_suggest_alternatives from
agents, but no definition appears in the sources.  Per spec section 4.3
(suggest(originalDestination, rejectionReason, startingCity, date) ->
sequence of AlternativeOption) it runs the single-node alternatives graph,
that is generate_alternatives_node, on a fresh state and returns the
alternatives value. -/
def agent_suggest_alternatives (dest : String) (reason : Json) (start date : String)
    (resp : Except String String) : Json :=
  (generate_alternatives_node
    { original_destination := dest, reason := reason, starting_city := start,
      travel_date := date, alternatives := .arr [] } resp).alternatives

/-- agents.py generate_trip_plan returns result.content with no
post-processing at all; as a function of the model response it is the
identity.  (Its prompt assembly does not affect any claim.) -/
def generate_trip_plan (modelOutput : String) : String := modelOutput

/-! ### ui_components.py: itinerary post-processing -/

/-- The replacement text for a finished newline run: a run of three or
more newlines becomes exactly two, shorter runs are kept as they were. -/
def emitNL (n : Nat) : List Char :=
  if 3 ≤ n then ['\n', '\n'] else List.replicate n '\n'

/-- Worker for re.sub(r of newline runs): the Nat counts the pending
consecutive newlines already read. -/
def collapseAux : Nat → List Char → List Char
  | n, [] => emitNL n
  | n, c :: cs => if c = '\n' then collapseAux (n + 1) cs else emitNL n ++ c :: collapseAux 0 cs

/-- ui_components.py line 221: re.sub(three-or-more newlines, two
newlines, trip_plan.strip()) — the regex is greedy, so each maximal run of
three or more newlines is replaced by a single blank line. -/
def normalizeItinerary (trip_plan : String) : String :=
  ⟨collapseAux 0 (pyStrip trip_plan).data⟩

/-- The itinerary composer end to end: generate_trip_plan passes the model
text through, render_itinerary_tabs then normalizes it before storing and
rendering it. -/
def composeItinerary (modelOutput : String) : String :=
  normalizeItinerary (generate_trip_plan modelOutput)

/-! ### app.py: the workflow state machine

Streamlit session state (initialised in config.py lines 73-90, plus the
trip-context attributes first assigned by the step-1 handler) is the state
of the machine.  Every transition of app.py — button handlers and the
render-pass side effects of steps 2 and 3 — is one event; outcomes of
external calls (tool initialisation, weather fetch, model responses) are
data of the event. -/

structure SessionState where
  step : Nat
  weather_data : Option String
  agent_decision : Option WeatherDecisionState
  itinerary_data : Option String
  api_keys_configured : Bool
  google_api_key : String
  weather_api_key : String
  serper_api_key : String
  starting_city : String
  destination_city : String
  travel_date : String
  duration : Nat
  alternative_suggestions : Json

/-- External outcomes seen while the step-2 screen runs its entry code. -/
inductive Step2Env where
  /-- Some call in the try block raised (tool init, weather fetch, ...):
  the except branch shows an error and changes no session field. -/
  | crash
  /-- initialize of the tools returned a falsy triple: error shown, no
  session field changes. -/
  | toolsFalsy
  /-- Weather text fetched and both model calls returned (the judge and
  finder calls themselves never raise out of their nodes). -/
  | ok (weather : String) (judgeResp : Except String String) (altResp : Except String String)

/-- Outcome of the save-keys validation in step 0. -/
inductive KeySetupResult where
  | raised
  | falsyTools
  | okTools

/-- app.py step 0 handler (lines 70-91): keys are written before the tool
initialisation, so they persist even when it raises or returns falsy; the
step advances only on success. -/
def saveKeysHandler (s : SessionState) (gk wk sk : String) (res : KeySetupResult) :
    SessionState :=
  if gk = "" || wk = "" || sk = "" then s
  else
    let s1 := { s with google_api_key := gk, weather_api_key := wk, serper_api_key := sk }
    match res with
    | .okTools => { s1 with api_keys_configured := true, step := 1 }
    | _ => s1

/-- app.py step 1 handler (lines 118-127): the Bool is the user-facing
validation error of line 120.  An empty starting or destination city
commits nothing and keeps the machine in step 1; otherwise all four
trip-context fields are committed and the step becomes 2. -/
def letAnalyzeWeatherHandler (s : SessionState) (startCity destCity date : String)
    (dur : Nat) : SessionState × Bool :=
  if startCity = "" || destCity = "" then (s, true)
  else
    ({ s with starting_city := startCity, destination_city := destCity,
              travel_date := date, duration := dur, step := 2 }, false)

/-- app.py step 2 entry code (lines 135-227): fetch weather, store it, run
the judge, store the decision; on verdict exactly "SUITABLE" advance to
step 3, otherwise run the finder and store its suggestions, staying in
step 2 until the user presses a button. -/
def runStep2Entry (s : SessionState) (env : Step2Env) : SessionState :=
  match env with
  | .crash => s
  | .toolsFalsy => s
  | .ok weather judgeResp altResp =>
    let d := agent_weather_decision weather s.destination_city s.travel_date judgeResp
    let s2 := { s with weather_data := some weather, agent_decision := some d }
    if pyEqStr d.decision "SUITABLE" then { s2 with step := 3 }
    else
      let alts := agent_suggest_alternatives s.destination_city d.reasoning
        s.starting_city s.travel_date altResp
      { s2 with alternative_suggestions := alts }

/-- app.py step 3 render pass (lines 247-269): on success
render_itinerary_tabs stores the normalized plan; a raised exception keeps
every field unchanged. -/
def runStep3Render (s : SessionState) (outcome : Except Unit String) : SessionState :=
  match outcome with
  | .error _ => s
  | .ok modelText => { s with itinerary_data := some (composeItinerary modelText) }

/-- Every transition of app.py.  Constructors carry the widget values and
external-call outcomes the handler reads. -/
inductive AppEvent where
  /-- Step 0: save keys and continue. -/
  | saveKeys (gk wk sk : String) (res : KeySetupResult)
  /-- Step 1: let the AI analyze the weather. -/
  | analyzeSubmit (startCity destCity date : String) (dur : Nat)
  /-- Step 1: change API keys. -/
  | changeKeysFromInput
  /-- Step 2: the entry code of the screen runs. -/
  | step2Entry (env : Step2Env)
  /-- Step 2: choose an alternative destination (lines 205-208). -/
  | chooseAlt (city : String)
  /-- Step 2: try a different date. -/
  | tryDifferentDate
  /-- Step 2: choose a different city. -/
  | chooseDifferentCity
  /-- Step 2: continue despite the weather. -/
  | continueAnyway
  /-- Step 2: update API keys (falsy-tools or exception screen). -/
  | updateKeysFromAnalyze
  /-- Step 2: go back after an exception. -/
  | goBackFromAnalyze
  /-- Step 3: the render pass of the screen runs. -/
  | step3Render (outcome : Except Unit String)
  /-- Step 3: plan another trip (lines 273-279). -/
  | planAnotherTrip
  /-- Step 3: change API keys. -/
  | changeKeysFromPlan
  /-- Step 3: download (no state change). -/
  | downloadItinerary
  /-- Step 3: go back after an exception. -/
  | goBackFromPlan
  /-- Step 3: update API keys after an exception. -/
  | updateKeysFromPlan

/-- The screen an event belongs to; a Streamlit button outside the active
screen does not exist, so an event fires only in its own step. -/
def eventStep : AppEvent → Nat
  | .saveKeys _ _ _ _ => 0
  | .analyzeSubmit _ _ _ _ => 1
  | .changeKeysFromInput => 1
  | .step2Entry _ => 2
  | .chooseAlt _ => 2
  | .tryDifferentDate => 2
  | .chooseDifferentCity => 2
  | .continueAnyway => 2
  | .updateKeysFromAnalyze => 2
  | .goBackFromAnalyze => 2
  | .step3Render _ => 3
  | .planAnotherTrip => 3
  | .changeKeysFromPlan => 3
  | .downloadItinerary => 3
  | .goBackFromPlan => 3
  | .updateKeysFromPlan => 3

/-- Effect of an event on session state, translated handler by handler
from app.py.  Events fired outside their screen leave the state as is. -/
def applyEvent (e : AppEvent) (s : SessionState) : SessionState :=
  if s.step = eventStep e then
    match e with
    | .saveKeys gk wk sk res => saveKeysHandler s gk wk sk res
    | .analyzeSubmit a b d n => (letAnalyzeWeatherHandler s a b d n).1
    | .changeKeysFromInput => { s with step := 0 }
    | .step2Entry env => runStep2Entry s env
    | .chooseAlt city => { s with destination_city := city, step := 2 }
    | .tryDifferentDate => { s with step := 1 }
    | .chooseDifferentCity => { s with step := 1 }
    | .continueAnyway => { s with step := 3 }
    | .updateKeysFromAnalyze => { s with step := 0 }
    | .goBackFromAnalyze => { s with step := 1 }
    | .step3Render outcome => runStep3Render s outcome
    | .planAnotherTrip =>
      { s with step := 1, weather_data := none, agent_decision := none,
               itinerary_data := none }
    | .changeKeysFromPlan => { s with step := 0 }
    | .downloadItinerary => s
    | .goBackFromPlan => { s with step := 1 }
    | .updateKeysFromPlan => { s with step := 0 }
  else s

/-- Events that are an explicit user restart, reset, or go-back choice:
exactly the buttons whose purpose is to send the workflow to an earlier
step. -/
def isExplicitReset : AppEvent → Bool
  | .changeKeysFromInput => true
  | .tryDifferentDate => true
  | .chooseDifferentCity => true
  | .updateKeysFromAnalyze => true
  | .goBackFromAnalyze => true
  | .planAnotherTrip => true
  | .changeKeysFromPlan => true
  | .goBackFromPlan => true
  | .updateKeysFromPlan => true
  | _ => false

/-! ### Concrete sample data for witnesses and counterexamples -/

/-- A concrete judge decision as stored in session state. -/
def sampleDecision : WeatherDecisionState :=
  { weather_data := "heavy storm, 60 km/h wind"
    destination := "Paris, France"
    travel_date := "May 01, 2026"
    decision := .str "NOT_SUITABLE"
    reasoning := .str "storm front over the city"
    concerns := .arr [.str "wind"]
    recommendation := .str "postpone" }

/-- A concrete populated session in step 2: a decision is stored and the
alternatives list is nonempty. -/
def sampleSession : SessionState :=
  { step := 2
    weather_data := some "heavy storm, 60 km/h wind"
    agent_decision := some sampleDecision
    itinerary_data := none
    api_keys_configured := true
    google_api_key := "g"
    weather_api_key := "w"
    serper_api_key := "s"
    starting_city := "Mumbai, India"
    destination_city := "Paris, France"
    travel_date := "2026-05-01"
    duration := 5
    alternative_suggestions := .arr [.str "Rome, Italy"] }

/-- Does the string contain three consecutive newline characters? -/
def hasTripleNewline (s : String) : Bool := occursB ['\n', '\n', '\n'] s.data

/-- A concrete alternatives-graph state for witnesses. -/
def sampleAlt : AlternativeState :=
  { original_destination := "Paris, France"
    reason := .str "storm front over the city"
    starting_city := "Mumbai, India"
    travel_date := "May 01, 2026"
    alternatives := .arr [] }

/-! ## Supporting lemmas -/

/-! ### Whitespace invariance of the tokenizer -/

theorem isJsonWs_cases (c : Char) (h : isJsonWs c = true) :
    c = ' ' ∨ c = '\t' ∨ c = '\n' ∨ c = '\r' := by
  have := of_decide_eq_true (by simpa [isJsonWs, Bool.or_eq_true] using h : _)
  tauto

/-- Trailing JSON whitespace from any mode behaves exactly like the end of
the input. -/
theorem tkRun_ws_eq_final :
    ∀ b : List Char, b.all isJsonWs = true → ∀ m, tkRun m b = tkFinal m := by
  intro b
  induction b with
  | nil => intro _ m; rfl
  | cons c cs ih =>
    intro hb m
    rw [List.all_cons, Bool.and_eq_true] at hb
    obtain ⟨hc, hcs⟩ := hb
    have ihm := ih hcs
    rcases isJsonWs_cases c hc with rfl | rfl | rfl | rfl <;> cases m <;>
      simp [tkRun, tkStep, tkStepTop, escChar, isHexDigit, isJsonWs, isAtomChar,
            ihm, tkFinal] <;>
      (rename_i acc; cases classifyAtom acc <;> rfl)

/-- Appending JSON whitespace to the input does not change the token
stream. -/
theorem tkRun_append_ws (b : List Char) (hb : b.all isJsonWs = true) :
    ∀ (s : List Char) (m : TkMode), tkRun m (s ++ b) = tkRun m s := by
  intro s
  induction s with
  | nil =>
    intro m
    rw [List.nil_append]
    exact tkRun_ws_eq_final b hb m
  | cons c cs ih =>
    intro m
    rw [List.cons_append]
    show (tkRun (tkStep m c).1 (cs ++ b)).map _ = (tkRun (tkStep m c).1 cs).map _
    rw [ih]

/-- Dropping leading JSON whitespace does not change the token stream. -/
theorem tkRun_top_ws_lead :
    ∀ a : List Char, a.all isJsonWs = true →
      ∀ s : List Char, tkRun .top (a ++ s) = tkRun .top s := by
  intro a
  induction a with
  | nil => intro _ s; rfl
  | cons c cs ih =>
    intro ha s
    rw [List.all_cons, Bool.and_eq_true] at ha
    have hstep : tkStep .top c = (.top, []) := by
      rcases isJsonWs_cases c ha.1 with rfl | rfl | rfl | rfl <;> rfl
    rw [List.cons_append]
    show (tkRun (tkStep .top c).1 (cs ++ s)).map _ = _
    rw [hstep, ih ha.2 s]
    cases tkRun TkMode.top s <;> rfl

/-! ### More occurrence lemmas -/

theorem startsWithChars_extend (o : List Char) :
    ∀ l b : List Char, startsWithChars o l = true →
      startsWithChars o (l ++ b) = true := by
  induction o with
  | nil => intro l b _; rfl
  | cons p ps ih =>
    intro l b h
    cases l with
    | nil => simp [startsWithChars] at h
    | cons c cs =>
      simp only [startsWithChars, Bool.and_eq_true] at h
      simp only [List.cons_append, startsWithChars, Bool.and_eq_true]
      exact ⟨h.1, ih cs b h.2⟩

theorem occursB_extend (o : List Char) :
    ∀ a b : List Char, occursB o a = true → occursB o (a ++ b) = true := by
  intro a
  induction a with
  | nil =>
    intro b h
    cases o with
    | nil => cases b <;> simp [occursB, startsWithChars]
    | cons p ps => simp [occursB, startsWithChars] at h
  | cons c cs ih =>
    intro b h
    simp only [occursB, Bool.or_eq_true] at h ⊢
    rcases h with h | h
    · exact Or.inl (startsWithChars_extend o (c :: cs) b h)
    · exact Or.inr (ih b h)

theorem occursB_of_prefix_false (o a b : List Char)
    (h : occursB o (a ++ b) = false) : occursB o a = false := by
  by_contra hne
  rw [Bool.not_eq_false] at hne
  rw [occursB_extend o a b hne] at h
  cases h

/-! ### Decomposition of Python strip -/

theorem stripRight_decomp (l : List Char) :
    stripRight l ++ (l.reverse.takeWhile isPyWs).reverse = l := by
  have h := List.takeWhile_append_dropWhile isPyWs l.reverse
  show (l.reverse.dropWhile isPyWs).reverse ++ (l.reverse.takeWhile isPyWs).reverse = l
  rw [← List.reverse_append, h, List.reverse_reverse]

theorem stripBoth_decomp (l : List Char) :
    l.takeWhile isPyWs ++ (stripBoth l ++ ((l.dropWhile isPyWs).reverse.takeWhile isPyWs).reverse)
      = l := by
  rw [stripBoth, stripRight_decomp (l.dropWhile isPyWs)]
  exact List.takeWhile_append_dropWhile isPyWs l

theorem occursB_stripBoth_false (o l : List Char) (h : occursB o l = false) :
    occursB o (stripBoth l) = false := by
  have h1 : occursB o (l.dropWhile isPyWs) = false := by
    have hd := List.takeWhile_append_dropWhile isPyWs l
    exact occursB_suffix o (l.takeWhile isPyWs) _ (by rwa [hd])
  have h2 := stripRight_decomp (l.dropWhile isPyWs)
  exact occursB_of_prefix_false o _ _ (by rwa [stripBoth, h2])

/-! ### Computation of the fence cleaning -/

/-- A fence marker cannot start inside a fence-free chunk followed by a
newline: any match would either lie wholly inside the chunk or cross the
newline. -/
theorem span_ticks (c : Char) (b t : List Char)
    (h : occursB ['\x60', '\x60', '\x60'] (c :: b) = false) :
    startsWithChars ['\x60', '\x60', '\x60'] ((c :: b) ++ '\n' :: t) = false := by
  match b with
  | [] => simp [startsWithChars]
  | [d] => simp [startsWithChars]
  | d :: e :: r =>
    have h1 : startsWithChars ['\x60', '\x60', '\x60'] (c :: d :: e :: r) = false :=
      not_startsWith_of_not_occurs _ _ h
    simp only [startsWithChars, Bool.and_true, List.cons_append] at h1 ⊢
    exact h1

/-- The tagged fence pattern does not occur in a fence-free body followed
by the closing fence. -/
theorem occursB_json_tag_tail (b : List Char)
    (hb : occursB ['\x60', '\x60', '\x60'] b = false) :
    occursB "```json".data (b ++ ['\n', '\x60', '\x60', '\x60']) = false := by
  have hdecomp : "```json".data = ['\x60', '\x60', '\x60'] ++ "json".data := rfl
  induction b with
  | nil => decide
  | cons c cs ih =>
    have hb2 := occursB_tail _ _ _ hb
    rw [List.cons_append, occursB, Bool.or_eq_false_iff]
    refine ⟨?_, ih hb2⟩
    by_contra hx
    rw [Bool.not_eq_false] at hx
    rw [hdecomp] at hx
    have h3 := startsWithChars_of_longer _ _ _ hx
    rw [← List.cons_append, span_ticks c cs _ hb] at h3
    cases h3

/-- The tagged fence pattern does not occur anywhere in an untagged fenced
document whose body is fence-free. -/
theorem occursB_json_tag_fenced (b : List Char)
    (hb : occursB ['\x60', '\x60', '\x60'] b = false) :
    occursB "```json".data
      ('\x60' :: '\x60' :: '\x60' :: '\n' :: (b ++ ['\n', '\x60', '\x60', '\x60'])) = false := by
  simp only [occursB, startsWithChars, Bool.or_eq_false_iff]
  refine ⟨?_, ?_, ?_, ?_, occursB_json_tag_tail b hb⟩ <;> simp

/-- Deleting every fence marker from a fence-free body followed by a
newline and the closing fence keeps the body and the newline. -/
theorem replAll_ticks_tail (b : List Char)
    (hb : occursB ['\x60', '\x60', '\x60'] b = false) :
    replAll ['\x60', '\x60', '\x60'] [] (b ++ ['\n', '\x60', '\x60', '\x60']) = b ++ ['\n'] := by
  induction b with
  | nil => decide
  | cons c cs ih =>
    have hb2 := occursB_tail _ _ _ hb
    rw [List.cons_append,
        replAll_cons_neg _ _ _ _ (by simpa using span_ticks c cs ['\x60', '\x60', '\x60'] hb),
        ih hb2, List.cons_append]

/-- A string of the shape backtick-middle-backtick is untouched by Python
str.strip(). -/
theorem stripBoth_fenced (u : List Char) :
    stripBoth ('\x60' :: (u ++ ['\x60'])) = '\x60' :: (u ++ ['\x60']) := by
  have hg : isPyWs '\x60' = false := rfl
  have h1 : List.dropWhile isPyWs ('\x60' :: (u ++ ['\x60'])) = '\x60' :: (u ++ ['\x60']) := by
    simp [List.dropWhile, hg]
  rw [stripBoth, h1, stripRight]
  have h2 : ('\x60' :: (u ++ ['\x60'])).reverse = '\x60' :: (u.reverse ++ ['\x60']) := by
    simp
  rw [h2]
  have h3 : List.dropWhile isPyWs ('\x60' :: (u.reverse ++ ['\x60']))
      = '\x60' :: (u.reverse ++ ['\x60']) := by
    simp [List.dropWhile, hg]
  rw [h3, ← h2, List.reverse_reverse]

/-- Character-level cleaning of an untagged fenced document. -/
theorem clean_data_untagged (b : List Char)
    (hb : occursB ['\x60', '\x60', '\x60'] b = false) :
    replAll ['\x60', '\x60', '\x60'] []
      (replOnce "```json".data []
        ('\x60' :: '\x60' :: '\x60' :: '\n' :: (b ++ ['\n', '\x60', '\x60', '\x60'])))
      = '\n' :: (b ++ ['\n']) := by
  rw [replOnce_of_not_occurs _ _ _ (occursB_json_tag_fenced b hb)]
  have hnl : occursB ['\x60', '\x60', '\x60'] ('\n' :: b) = false := by
    rw [occursB, Bool.or_eq_false_iff]
    exact ⟨by simp [startsWithChars], hb⟩
  have hhit := replAll_head_hit '\x60' ['\x60', '\x60'] []
    ('\n' :: (b ++ ['\n', '\x60', '\x60', '\x60']))
  have hr : ('\n' :: b) ++ ['\n', '\x60', '\x60', '\x60']
      = '\n' :: (b ++ ['\n', '\x60', '\x60', '\x60']) := by simp
  calc replAll ['\x60', '\x60', '\x60'] []
        ('\x60' :: '\x60' :: '\x60' :: '\n' :: (b ++ ['\n', '\x60', '\x60', '\x60']))
      = replAll ['\x60', '\x60', '\x60'] []
          (('\x60' :: ['\x60', '\x60']) ++ ('\n' :: (b ++ ['\n', '\x60', '\x60', '\x60']))) := rfl
    _ = [] ++ replAll ['\x60', '\x60', '\x60'] []
          ('\n' :: (b ++ ['\n', '\x60', '\x60', '\x60'])) := hhit
    _ = replAll ['\x60', '\x60', '\x60'] [] (('\n' :: b) ++ ['\n', '\x60', '\x60', '\x60']) := by
        rw [List.nil_append, hr]
    _ = ('\n' :: b) ++ ['\n'] := replAll_ticks_tail ('\n' :: b) hnl
    _ = '\n' :: (b ++ ['\n']) := by simp

/-- Character-level cleaning of a json-tagged fenced document. -/
theorem clean_data_tagged (b : List Char)
    (hb : occursB ['\x60', '\x60', '\x60'] b = false) :
    replAll ['\x60', '\x60', '\x60'] []
      (replOnce "```json".data []
        ("```json".data ++ ('\n' :: (b ++ ['\n', '\x60', '\x60', '\x60']))))
      = '\n' :: (b ++ ['\n']) := by
  have hdecomp : "```json".data = '\x60' :: "``json".data := rfl
  rw [hdecomp, replOnce_head_hit '\x60' "``json".data [] _, List.nil_append]
  have hnl : occursB ['\x60', '\x60', '\x60'] ('\n' :: b) = false := by
    rw [occursB, Bool.or_eq_false_iff]
    exact ⟨by simp [startsWithChars], hb⟩
  have hr : '\n' :: (b ++ ['\n', '\x60', '\x60', '\x60'])
      = ('\n' :: b) ++ ['\n', '\x60', '\x60', '\x60'] := by simp
  rw [hr, replAll_ticks_tail ('\n' :: b) hnl]
  simp

/-- Cleaning a fenced document with an empty or json language tag yields
exactly the body wrapped in the two separator newlines. -/
theorem cleanResponse_fenced (tag body : String)
    (htag : tag = "" ∨ tag = "json")
    (hb : occursB ['\x60', '\x60', '\x60'] body.data = false) :
    cleanResponse ("```" ++ tag ++ "\n" ++ body ++ "\n```")
      = ⟨'\n' :: (body.data ++ ['\n'])⟩ := by
  have e1 : "```".data = ['\x60', '\x60', '\x60'] := rfl
  have e2 : "\n".data = ['\n'] := rfl
  have e3 : "\n```".data = ['\n', '\x60', '\x60', '\x60'] := rfl
  have e4 : "```json".data = ['\x60', '\x60', '\x60', 'j', 's', 'o', 'n'] := rfl
  rcases htag with rfl | rfl
  · have e0 : "".data = ([] : List Char) := rfl
    have hdata : ("```" ++ "" ++ "\n" ++ body ++ "\n```").data
        = '\x60' :: '\x60' :: '\x60' :: '\n' :: (body.data ++ ['\n', '\x60', '\x60', '\x60']) := by
      simp [String.data_append, e0, e1, e2, e3]
    have hform : ("```" ++ "" ++ "\n" ++ body ++ "\n```").data
        = '\x60' :: ((['\x60', '\x60', '\n'] ++ body.data ++ ['\n', '\x60', '\x60']) ++ ['\x60']) := by
      rw [hdata]; simp
    have hstrip : pyStrip ("```" ++ "" ++ "\n" ++ body ++ "\n```")
        = "```" ++ "" ++ "\n" ++ body ++ "\n```" := by
      show (⟨stripBoth ("```" ++ "" ++ "\n" ++ body ++ "\n```").data⟩ : String) = _
      rw [hform, stripBoth_fenced, ← hform]
    have hsw : pyStartsWith ("```" ++ "" ++ "\n" ++ body ++ "\n```") "```" = true := by
      show startsWithChars "```".data _ = true
      rw [hdata, e1]
      simp [startsWithChars]
    simp only [cleanResponse, hstrip, hsw, if_true]
    have hone : pyReplaceOnce ("```" ++ "" ++ "\n" ++ body ++ "\n```") "```json" ""
        = ⟨replOnce "```json".data []
            ('\x60' :: '\x60' :: '\x60' :: '\n' :: (body.data ++ ['\n', '\x60', '\x60', '\x60']))⟩ := by
      show (⟨replOnce "```json".data "".data ("```" ++ "" ++ "\n" ++ body ++ "\n```").data⟩ : String) = _
      rw [hdata]
    rw [hone]
    show (⟨replAll "```".data "".data _⟩ : String) = _
    rw [e1]
    exact congrArg String.mk (clean_data_untagged body.data hb)
  · have hdata : ("```" ++ "json" ++ "\n" ++ body ++ "\n```").data
        = "```json".data ++ ('\n' :: (body.data ++ ['\n', '\x60', '\x60', '\x60'])) := by
      simp [String.data_append, e1, e2, e3, e4]
    have hform : ("```" ++ "json" ++ "\n" ++ body ++ "\n```").data
        = '\x60' :: ((['\x60', '\x60', 'j', 's', 'o', 'n', '\n'] ++ body.data ++ ['\n', '\x60', '\x60'])
            ++ ['\x60']) := by
      rw [hdata, e4]; simp
    have hstrip : pyStrip ("```" ++ "json" ++ "\n" ++ body ++ "\n```")
        = "```" ++ "json" ++ "\n" ++ body ++ "\n```" := by
      show (⟨stripBoth ("```" ++ "json" ++ "\n" ++ body ++ "\n```").data⟩ : String) = _
      rw [hform, stripBoth_fenced, ← hform]
    have hsw : pyStartsWith ("```" ++ "json" ++ "\n" ++ body ++ "\n```") "```" = true := by
      show startsWithChars "```".data _ = true
      rw [hdata, e1, e4]
      simp [startsWithChars]
    simp only [cleanResponse, hstrip, hsw, if_true]
    have hone : pyReplaceOnce ("```" ++ "json" ++ "\n" ++ body ++ "\n```") "```json" ""
        = ⟨replOnce "```json".data []
            ("```json".data ++ ('\n' :: (body.data ++ ['\n', '\x60', '\x60', '\x60'])))⟩ := by
      show (⟨replOnce "```json".data "".data ("```" ++ "json" ++ "\n" ++ body ++ "\n```").data⟩ : String) = _
      rw [hdata]
    rw [hone]
    show (⟨replAll "```".data "".data _⟩ : String) = _
    rw [e1]
    exact congrArg String.mk (clean_data_tagged body.data hb)

/-- A body with no fence marker is only stripped by the cleaning step. -/
theorem cleanResponse_noFence (body : String)
    (hb : occursB ['\x60', '\x60', '\x60'] body.data = false) :
    cleanResponse body = pyStrip body := by
  have h1 : occursB ['\x60', '\x60', '\x60'] (stripBoth body.data) = false :=
    occursB_stripBoth_false _ _ hb
  have h2 : pyStartsWith (pyStrip body) "```" = false := by
    show startsWithChars "```".data (stripBoth body.data) = false
    exact not_startsWith_of_not_occurs _ _ h1
  simp only [cleanResponse, h2, Bool.false_eq_true, if_false]

/-- Wrapping the body in single newlines tokenizes like the bare body. -/
theorem tokenize_nl_wrap (body : String) :
    tokenize ⟨'\n' :: (body.data ++ ['\n'])⟩ = tkRun .top body.data := by
  show tkRun .top ('\n' :: (body.data ++ ['\n'])) = _
  have h1 := tkRun_top_ws_lead ['\n'] (by decide) (body.data ++ ['\n'])
  rw [List.singleton_append] at h1
  rw [h1]
  exact tkRun_append_ws ['\n'] (by decide) body.data .top

/-- When every character stripped from the body is JSON whitespace,
stripping does not change its token stream. -/
theorem tokenize_pyStrip (body : String)
    (hl : (body.data.takeWhile isPyWs).all isJsonWs = true)
    (hr : ((body.data.dropWhile isPyWs).reverse.takeWhile isPyWs).all isJsonWs = true) :
    tokenize (pyStrip body) = tkRun .top body.data := by
  show tkRun .top (stripBoth body.data) = _
  have hd := stripBoth_decomp body.data
  have hwr : (((body.data.dropWhile isPyWs).reverse.takeWhile isPyWs).reverse).all isJsonWs
      = true := by
    rwa [List.all_reverse]
  calc tkRun .top (stripBoth body.data)
      = tkRun .top (stripBoth body.data
          ++ ((body.data.dropWhile isPyWs).reverse.takeWhile isPyWs).reverse) :=
        (tkRun_append_ws _ hwr _ _).symm
    _ = tkRun .top (body.data.takeWhile isPyWs
          ++ (stripBoth body.data
            ++ ((body.data.dropWhile isPyWs).reverse.takeWhile isPyWs).reverse)) :=
        (tkRun_top_ws_lead _ hl _).symm
    _ = tkRun .top body.data := by rw [hd]

/-! ## Claims -/

/-- C1: for every model response outcome the suitability judge returns a
decision — the node is a total function, so no exception can propagate —
and on any fault (invoke error, empty response, JSON parse failure) the
returned decision has verdict SUITABLE, empty concerns, and the documented
fallback reasoning and recommendation strings of the two except branches
of agents.py lines 84-101. -/
theorem C1_judge_fault_fallback (st : WeatherDecisionState) :
    (∀ e : String,
      (analyze_weather_node st (.error e)).decision = .str "SUITABLE" ∧
      (analyze_weather_node st (.error e)).concerns = .arr [] ∧
      (analyze_weather_node st (.error e)).reasoning
        = .str "Unable to analyze weather, proceeding with caution" ∧
      (analyze_weather_node st (.error e)).recommendation
        = .str "Review weather data manually") ∧
    (∀ t : String, json_loads (cleanResponse t) = none →
      (analyze_weather_node st (.ok t)).decision = .str "SUITABLE" ∧
      (analyze_weather_node st (.ok t)).concerns = .arr [] ∧
      (analyze_weather_node st (.ok t)).reasoning
        = .str "Unable to parse weather analysis, proceeding with caution" ∧
      (analyze_weather_node st (.ok t)).recommendation
        = .str "Review weather data manually before traveling") := by
  constructor
  · intro e
    exact ⟨rfl, rfl, rfl, rfl⟩
  · intro t h
    simp only [analyze_weather_node, h]
    exact ⟨rfl, rfl, rfl, rfl⟩

/-- C1 witness: a network fault and the empty response, at concrete
inputs. -/
theorem C1_judge_fault_fallback_witness :
    (analyze_weather_node sampleDecision (.error "network down")).decision
      = .str "SUITABLE" ∧
    json_loads (cleanResponse "") = none ∧
    (analyze_weather_node sampleDecision (.ok "")).reasoning
      = .str "Unable to parse weather analysis, proceeding with caution" :=
  ⟨((C1_judge_fault_fallback sampleDecision).1 "network down").1, rfl,
   ((C1_judge_fault_fallback sampleDecision).2 "" rfl).2.2.1⟩

/-- C5: in step 1 the transition to step 2 happens exactly when both city
strings are non-empty; otherwise the handler surfaces the validation
error, stays in step 1, and commits no trip-context field. -/
theorem C5_input_validation (s : SessionState) (h : s.step = 1)
    (startCity destCity date : String) (dur : Nat) :
    ((letAnalyzeWeatherHandler s startCity destCity date dur).1.step = 2
      ↔ (startCity ≠ "" ∧ destCity ≠ "")) ∧
    (startCity = "" ∨ destCity = "" →
      letAnalyzeWeatherHandler s startCity destCity date dur = (s, true)) ∧
    (startCity ≠ "" → destCity ≠ "" →
      (letAnalyzeWeatherHandler s startCity destCity date dur).1
        = { s with starting_city := startCity, destination_city := destCity,
                   travel_date := date, duration := dur, step := 2 } ∧
      (letAnalyzeWeatherHandler s startCity destCity date dur).2 = false) := by
  by_cases ha : startCity = "" <;> by_cases hb : destCity = "" <;>
    simp [letAnalyzeWeatherHandler, ha, hb, h]

/-- C5 witness: a valid pair advances to step 2 and an empty starting city
is rejected unchanged. -/
theorem C5_input_validation_witness :
    ({ sampleSession with step := 1 } : SessionState).step = 1 ∧
    (letAnalyzeWeatherHandler { sampleSession with step := 1 }
      "Mumbai, India" "Paris, France" "2026-05-01" 5).1.step = 2 ∧
    letAnalyzeWeatherHandler { sampleSession with step := 1 }
      "" "Paris, France" "2026-05-01" 5 = ({ sampleSession with step := 1 }, true) := by
  refine ⟨rfl, ?_, ?_⟩
  · exact (C5_input_validation { sampleSession with step := 1 } rfl
      "Mumbai, India" "Paris, France" "2026-05-01" 5).1.mpr ⟨by decide, by decide⟩
  · exact (C5_input_validation { sampleSession with step := 1 } rfl
      "" "Paris, France" "2026-05-01" 5).2.1 (Or.inl rfl)

/-- C6: every fault of the alternative finder — invoke error, unparseable
or empty response, a parsed non-object, or a parsed object with no
alternatives key — yields exactly the empty sequence, and the node is a
total function, so no exception propagates. -/
theorem C6_finder_fault_empty (st : AlternativeState) :
    (∀ e : String, (generate_alternatives_node st (.error e)).alternatives = .arr []) ∧
    (∀ t : String, json_loads (cleanResponse t) = none →
      (generate_alternatives_node st (.ok t)).alternatives = .arr []) ∧
    (∀ (t : String) (mems : List (String × Json)),
      json_loads (cleanResponse t) = some (.obj mems) →
      pyGet mems "alternatives" = none →
      (generate_alternatives_node st (.ok t)).alternatives = .arr []) ∧
    (∀ (t : String) (j : Json), json_loads (cleanResponse t) = some j →
      (∀ mems, j ≠ .obj mems) →
      (generate_alternatives_node st (.ok t)).alternatives = .arr []) := by
  refine ⟨fun e => rfl, fun t h => ?_, fun t mems h hk => ?_, fun t j h hno => ?_⟩
  · simp [generate_alternatives_node, h]
  · simp [generate_alternatives_node, h, hk]
  · cases j with
    | obj mems => exact absurd rfl (hno mems)
    | null => simp [generate_alternatives_node, h]
    | bool b => simp [generate_alternatives_node, h]
    | num lex => simp [generate_alternatives_node, h]
    | str v => simp [generate_alternatives_node, h]
    | arr xs => simp [generate_alternatives_node, h]

/-- C6 witness: an unparseable response and an object missing the
alternatives key, at concrete inputs. -/
theorem C6_finder_fault_empty_witness :
    json_loads (cleanResponse "oops") = none ∧
    (generate_alternatives_node sampleAlt (.ok "oops")).alternatives = .arr [] ∧
    json_loads (cleanResponse "\x7b\"a\": 1\x7d") = some (.obj [("a", .num "1")]) ∧
    pyGet [("a", Json.num "1")] "alternatives" = none ∧
    (generate_alternatives_node sampleAlt (.ok "\x7b\"a\": 1\x7d")).alternatives = .arr [] :=
  ⟨rfl, (C6_finder_fault_empty sampleAlt).2.1 "oops" rfl, rfl, rfl,
   (C6_finder_fault_empty sampleAlt).2.2.1 "\x7b\"a\": 1\x7d" [("a", .num "1")] rfl rfl⟩

/-- C7: when the response parses to an object, each missing field defaults
to decision SUITABLE, reasoning "Weather conditions analyzed", concerns
empty, recommendation "Proceed with your trip", and each present field is
taken from the object unchanged. -/
theorem C7_field_defaults (st : WeatherDecisionState) (t : String)
    (mems : List (String × Json))
    (h : json_loads (cleanResponse t) = some (.obj mems)) :
    (pyGet mems "decision" = none →
      (analyze_weather_node st (.ok t)).decision = .str "SUITABLE") ∧
    (∀ v, pyGet mems "decision" = some v → (analyze_weather_node st (.ok t)).decision = v) ∧
    (pyGet mems "reasoning" = none →
      (analyze_weather_node st (.ok t)).reasoning = .str "Weather conditions analyzed") ∧
    (∀ v, pyGet mems "reasoning" = some v → (analyze_weather_node st (.ok t)).reasoning = v) ∧
    (pyGet mems "concerns" = none →
      (analyze_weather_node st (.ok t)).concerns = .arr []) ∧
    (∀ v, pyGet mems "concerns" = some v → (analyze_weather_node st (.ok t)).concerns = v) ∧
    (pyGet mems "recommendation" = none →
      (analyze_weather_node st (.ok t)).recommendation = .str "Proceed with your trip") ∧
    (∀ v, pyGet mems "recommendation" = some v →
      (analyze_weather_node st (.ok t)).recommendation = v) := by
  have hnode : analyze_weather_node st (.ok t)
      = { st with
          decision := (pyGet mems "decision").getD (.str "SUITABLE")
          reasoning := (pyGet mems "reasoning").getD (.str "Weather conditions analyzed")
          concerns := (pyGet mems "concerns").getD (.arr [])
          recommendation := (pyGet mems "recommendation").getD (.str "Proceed with your trip") } := by
    simp [analyze_weather_node, h]
  rw [hnode]
  refine ⟨fun h1 => ?_, fun v h1 => ?_, fun h1 => ?_, fun v h1 => ?_,
          fun h1 => ?_, fun v h1 => ?_, fun h1 => ?_, fun v h1 => ?_⟩ <;>
    simp [h1]

/-- C7 witness: an object carrying only a reasoning field keeps it and
defaults the other three fields. -/
theorem C7_field_defaults_witness :
    json_loads (cleanResponse "\x7b\"reasoning\": \"clear sky\"\x7d")
      = some (.obj [("reasoning", .str "clear sky")]) ∧
    (analyze_weather_node sampleDecision
      (.ok "\x7b\"reasoning\": \"clear sky\"\x7d")).decision = .str "SUITABLE" ∧
    (analyze_weather_node sampleDecision
      (.ok "\x7b\"reasoning\": \"clear sky\"\x7d")).reasoning = .str "clear sky" :=
  ⟨rfl,
   (C7_field_defaults sampleDecision "\x7b\"reasoning\": \"clear sky\"\x7d"
     [("reasoning", .str "clear sky")] rfl).1 rfl,
   (C7_field_defaults sampleDecision "\x7b\"reasoning\": \"clear sky\"\x7d"
     [("reasoning", .str "clear sky")] rfl).2.2.2.1 (.str "clear sky") rfl⟩

/-- C2 counterexample: three fenced documents the claim covers but the
code mishandles.  First, a JSON body whose reasoning string contains a
fence marker: cleaning deletes the marker inside the string, so the fenced
response parses to a different reasoning than the bare body.  Second, a
fence with language tag JSON (not the lowercase json): cleaning leaves the
tag in place, parsing fails, and the fenced response falls back to
SUITABLE while the bare body parses to NOT_SUITABLE.  Third, a body padded
with a vertical tab: bare, str.strip removes it and the body parses;
fenced, the pad stays inside the newline wrapper and parsing fails, so the
two paths take different fallback branches. -/
theorem C2_fence_counterexample :
    (analyze_weather_node sampleDecision
      (.ok ("```" ++ "" ++ "\n"
        ++ "\x7b\"decision\": \"NOT_SUITABLE\", \"reasoning\": \"a```b\"\x7d"
        ++ "\n```"))).reasoning = .str "ab" ∧
    (analyze_weather_node sampleDecision
      (.ok "\x7b\"decision\": \"NOT_SUITABLE\", \"reasoning\": \"a```b\"\x7d")).reasoning
      = .str "a```b" ∧
    "ab" ≠ "a```b" ∧
    (analyze_weather_node sampleDecision
      (.ok ("```" ++ "JSON" ++ "\n" ++ "\x7b\"decision\": \"NOT_SUITABLE\"\x7d"
        ++ "\n```"))).decision = .str "SUITABLE" ∧
    (analyze_weather_node sampleDecision
      (.ok "\x7b\"decision\": \"NOT_SUITABLE\"\x7d")).decision = .str "NOT_SUITABLE" ∧
    "SUITABLE" ≠ "NOT_SUITABLE" ∧
    (analyze_weather_node sampleDecision
      (.ok ("```" ++ "" ++ "\n" ++ "\x0btrue" ++ "\n```"))).reasoning
      = .str "Unable to parse weather analysis, proceeding with caution" ∧
    (analyze_weather_node sampleDecision (.ok "\x0btrue")).reasoning
      = .str "Unable to analyze weather, proceeding with caution" :=
  ⟨rfl, rfl, by decide, rfl, rfl, by decide, rfl, rfl⟩

/-- C2 amended: a response wrapped in code-fence markup parses to exactly
the same decision as the bare body, provided the language tag is json or
absent, the body itself contains no fence marker, and the whitespace that
padding-strip removes from the bare body is JSON whitespace (so the same
characters are also ignored by the JSON parser). -/
theorem C2_fence_equiv (tag body : String)
    (htag : tag = "" ∨ tag = "json")
    (hb : occursB ['\x60', '\x60', '\x60'] body.data = false)
    (hl : (body.data.takeWhile isPyWs).all isJsonWs = true)
    (hr : ((body.data.dropWhile isPyWs).reverse.takeWhile isPyWs).all isJsonWs = true)
    (st : WeatherDecisionState) :
    analyze_weather_node st (.ok ("```" ++ tag ++ "\n" ++ body ++ "\n```"))
      = analyze_weather_node st (.ok body) := by
  have h5 : json_loads (cleanResponse ("```" ++ tag ++ "\n" ++ body ++ "\n```"))
      = json_loads (cleanResponse body) := by
    rw [cleanResponse_fenced tag body htag hb, cleanResponse_noFence body hb]
    show (tokenize _).bind _ = (tokenize _).bind _
    rw [tokenize_nl_wrap, tokenize_pyStrip body hl hr]
  simp only [analyze_weather_node]
  rw [h5]

/-- C2 witness: a json-tagged fenced NOT_SUITABLE object equals its bare
parse. -/
theorem C2_fence_equiv_witness :
    occursB ['\x60', '\x60', '\x60'] "\x7b\"decision\": \"NOT_SUITABLE\"\x7d".data = false ∧
    analyze_weather_node sampleDecision
      (.ok ("```" ++ "json" ++ "\n" ++ "\x7b\"decision\": \"NOT_SUITABLE\"\x7d" ++ "\n```"))
      = analyze_weather_node sampleDecision (.ok "\x7b\"decision\": \"NOT_SUITABLE\"\x7d") :=
  ⟨by decide,
   C2_fence_equiv "json" "\x7b\"decision\": \"NOT_SUITABLE\"\x7d" (Or.inr rfl)
     (by decide) (by decide) (by decide) sampleDecision⟩

/-- C3 counterexample: choosing an alternative does not clear the stored
decision or the alternatives list — the handler of app.py lines 205-208
writes only destination_city and step. -/
theorem C3_choose_alternative_counterexample :
    (applyEvent (.chooseAlt "Rome, Italy") sampleSession).agent_decision ≠ none ∧
    (applyEvent (.chooseAlt "Rome, Italy") sampleSession).alternative_suggestions
      ≠ .arr [] := by
  constructor
  · show some sampleDecision ≠ none
    simp
  · show Json.arr [Json.str "Rome, Italy"] ≠ Json.arr []
    simp

/-- C3 amended: choosing an alternative in step 2 replaces
destination_city, re-enters step 2 directly (never via step 1), and keeps
the other trip-context fields; the previously stored decision and
alternatives list are NOT cleared by the transition — they survive until
the step-2 entry code overwrites them. -/
theorem C3_choose_alternative (s : SessionState) (h : s.step = 2) (city : String) :
    (applyEvent (.chooseAlt city) s).destination_city = city ∧
    (applyEvent (.chooseAlt city) s).step = 2 ∧
    (applyEvent (.chooseAlt city) s).starting_city = s.starting_city ∧
    (applyEvent (.chooseAlt city) s).travel_date = s.travel_date ∧
    (applyEvent (.chooseAlt city) s).duration = s.duration ∧
    (applyEvent (.chooseAlt city) s).agent_decision = s.agent_decision ∧
    (applyEvent (.chooseAlt city) s).alternative_suggestions
      = s.alternative_suggestions := by
  simp [applyEvent, eventStep, h]

/-- C3 witness: the amended transition at a concrete populated session. -/
theorem C3_choose_alternative_witness :
    sampleSession.step = 2 ∧
    (applyEvent (.chooseAlt "Rome, Italy") sampleSession).destination_city
      = "Rome, Italy" ∧
    (applyEvent (.chooseAlt "Rome, Italy") sampleSession).step = 2 :=
  ⟨rfl, (C3_choose_alternative sampleSession rfl "Rome, Italy").1,
   (C3_choose_alternative sampleSession rfl "Rome, Italy").2.1⟩

/-- C4 counterexample: the plan-another-trip handler of app.py lines
273-279 leaves alternative_suggestions untouched, so a populated
alternatives list survives the reset. -/
theorem C4_plan_another_counterexample :
    (applyEvent .planAnotherTrip { sampleSession with step := 3 }).alternative_suggestions
      ≠ .arr [] := by
  show Json.arr [Json.str "Rome, Italy"] ≠ Json.arr []
  simp

/-- C4 amended: plan-another-trip from step 3 returns to step 1 and clears
weather_data, agent_decision and itinerary_data; the alternatives list is
NOT cleared and keeps its previous value. -/
theorem C4_plan_another_trip (s : SessionState) (h : s.step = 3) :
    (applyEvent .planAnotherTrip s).step = 1 ∧
    (applyEvent .planAnotherTrip s).weather_data = none ∧
    (applyEvent .planAnotherTrip s).agent_decision = none ∧
    (applyEvent .planAnotherTrip s).itinerary_data = none ∧
    (applyEvent .planAnotherTrip s).alternative_suggestions
      = s.alternative_suggestions := by
  simp [applyEvent, eventStep, h]

/-- C4 witness: the amended reset at a concrete populated session. -/
theorem C4_plan_another_trip_witness :
    ({ sampleSession with step := 3 } : SessionState).step = 3 ∧
    (applyEvent .planAnotherTrip { sampleSession with step := 3 }).step = 1 ∧
    (applyEvent .planAnotherTrip { sampleSession with step := 3 }).agent_decision = none :=
  ⟨rfl, (C4_plan_another_trip { sampleSession with step := 3 } rfl).1,
   (C4_plan_another_trip { sampleSession with step := 3 } rfl).2.2.1⟩

/-- C8: no transition decreases the step index except the explicit user
restart, reset and go-back buttons; the save-keys, analyze, step-2 entry,
alternative, continue-anyway, render and download transitions all keep or
increase it. -/
theorem C8_step_monotone (e : AppEvent) (s : SessionState)
    (h : isExplicitReset e = false) :
    s.step ≤ (applyEvent e s).step := by
  by_cases hg : s.step = eventStep e
  · cases e <;> simp only [isExplicitReset, Bool.true_eq_false] at h <;>
      simp only [eventStep] at hg <;>
      simp only [applyEvent, eventStep, hg, if_pos] <;>
      first
      | omega
      | (rename_i gk wk sk res
         simp only [saveKeysHandler]
         split
         · omega
         · cases res <;> simp <;> omega)
      | (rename_i a b d n
         simp only [letAnalyzeWeatherHandler]
         split <;> simp <;> omega)
      | (rename_i env
         cases env <;> simp only [runStep2Entry] <;> first | omega | (split <;> simp <;> omega))
      | (rename_i outcome
         cases outcome <;> simp only [runStep3Render] <;> omega)
  · simp [applyEvent, hg]

/-- C8 witness: the continue-anyway override at a concrete session. -/
theorem C8_step_monotone_witness :
    isExplicitReset .continueAnyway = false ∧
    sampleSession.step ≤ (applyEvent .continueAnyway sampleSession).step :=
  ⟨rfl, C8_step_monotone .continueAnyway sampleSession rfl⟩

/-! ### Newline collapsing lemmas for C9 -/

theorem occursB_nl3_prepend (k : Nat) (hk : k ≤ 2) (c : Char) (rest : List Char)
    (hc : c ≠ '\n') (h : occursB ['\n', '\n', '\n'] rest = false) :
    occursB ['\n', '\n', '\n'] (List.replicate k '\n' ++ c :: rest) = false := by
  have hd : decide ('\n' = c) = false := decide_eq_false (fun he => hc he.symm)
  interval_cases k <;> simp [occursB, startsWithChars, List.replicate, hd, h]

theorem occursB_nl3_emit (n : Nat) : occursB ['\n', '\n', '\n'] (emitNL n) = false := by
  rw [emitNL]
  split
  · decide
  · rename_i hn
    have h3 : n < 3 := by omega
    interval_cases n <;> decide

theorem occursB_nl3_block (n : Nat) (c : Char) (rest : List Char) (hc : c ≠ '\n')
    (h : occursB ['\n', '\n', '\n'] rest = false) :
    occursB ['\n', '\n', '\n'] (emitNL n ++ c :: rest) = false := by
  rw [emitNL]
  split
  · exact occursB_nl3_prepend 2 (by omega) c rest hc h
  · rename_i hn
    exact occursB_nl3_prepend n (by omega) c rest hc h

/-- The collapsed output never contains a run of three newlines. -/
theorem collapse_no_nl3 (l : List Char) :
    ∀ n : Nat, occursB ['\n', '\n', '\n'] (collapseAux n l) = false := by
  induction l with
  | nil => intro n; exact occursB_nl3_emit n
  | cons c cs ih =>
    intro n
    by_cases hc : c = '\n'
    · subst hc
      rw [show collapseAux n ('\n' :: cs) = collapseAux (n + 1) cs by simp [collapseAux]]
      exact ih (n + 1)
    · rw [show collapseAux n (c :: cs) = emitNL n ++ c :: collapseAux 0 cs by
        simp [collapseAux, hc]]
      exact occursB_nl3_block n c _ hc (ih 0)

/-- Inputs already free of triple newlines pass through unchanged. -/
theorem collapse_id (l : List Char) :
    ∀ n : Nat, n ≤ 2 →
      occursB ['\n', '\n', '\n'] (List.replicate n '\n' ++ l) = false →
      collapseAux n l = List.replicate n '\n' ++ l := by
  induction l with
  | nil =>
    intro n hn h
    simp [collapseAux, emitNL, show ¬ 3 ≤ n by omega]
  | cons c cs ih =>
    intro n hn h
    by_cases hc : c = '\n'
    · subst hc
      have hn1 : n ≤ 1 := by
        by_contra hx
        have hn2 : n = 2 := by omega
        subst hn2
        simp [occursB, startsWithChars, List.replicate] at h
      have hrep : List.replicate n '\n' ++ '\n' :: cs
          = List.replicate (n + 1) '\n' ++ cs := by
        simp [List.replicate_succ', List.append_assoc]
      rw [show collapseAux n ('\n' :: cs) = collapseAux (n + 1) cs by simp [collapseAux]]
      rw [hrep] at h ⊢
      exact ih (n + 1) (by omega) h
    · rw [show collapseAux n (c :: cs) = emitNL n ++ c :: collapseAux 0 cs by
        simp [collapseAux, hc]]
      have hcs : occursB ['\n', '\n', '\n'] cs = false := by
        have h1 := occursB_suffix _ _ _ h
        exact occursB_tail _ _ _ h1
      rw [ih 0 (by omega) (by simpa using hcs)]
      rw [emitNL, if_neg (by omega)]
      simp

/-- C9 counterexample: the composer is not verbatim-except-collapsing.  A
leading space is stripped although the claim requires it kept, and a run
of two blank lines (three newlines) is collapsed although the claim only
collapses runs of three or more blank lines. -/
theorem C9_itinerary_counterexample :
    composeItinerary " a" ≠ " a" ∧ composeItinerary "a\n\n\nb" ≠ "a\n\n\nb" := by
  constructor <;> decide

/-- C9 amended: the composer returns the model text with leading and
trailing whitespace stripped and every run of three or more newline
characters (two or more blank lines) collapsed to exactly two newlines:
the output never contains three consecutive newlines, and a text that is
already stripped and free of triple newlines is returned verbatim. -/
theorem C9_itinerary_collapse (t : String) :
    hasTripleNewline (composeItinerary t) = false ∧
    (pyStrip t = t → hasTripleNewline t = false → composeItinerary t = t) := by
  constructor
  · show occursB ['\n', '\n', '\n'] (collapseAux 0 (pyStrip t).data) = false
    exact collapse_no_nl3 _ 0
  · intro hs h3
    show (⟨collapseAux 0 (pyStrip t).data⟩ : String) = t
    rw [hs]
    have hid := collapse_id t.data 0 (by omega) (by simpa using h3)
    simp only [List.replicate, List.nil_append] at hid
    rw [hid]

/-- C9 witness: a two-day itinerary with a single blank line passes
through unchanged. -/
theorem C9_itinerary_collapse_witness :
    pyStrip "Day 1: x\n\nDay 2: y" = "Day 1: x\n\nDay 2: y" ∧
    hasTripleNewline "Day 1: x\n\nDay 2: y" = false ∧
    composeItinerary "Day 1: x\n\nDay 2: y" = "Day 1: x\n\nDay 2: y" :=
  ⟨rfl, rfl, (C9_itinerary_collapse "Day 1: x\n\nDay 2: y").2 rfl rfl⟩

/-- Python string comparison against SUITABLE succeeds exactly on the
string value SUITABLE. -/
theorem pyEqStr_true_iff (j : Json) (v : String) : pyEqStr j v = true ↔ j = .str v := by
  cases j <;> simp [pyEqStr]

/-- C10: the parsed verdict is stored unvalidated and the step-2 branch
compares it with the exact string SUITABLE: that value advances to step 3,
while every other parsed value — any other string, or a non-string —
stays in step 2, stores the decision, and invokes the alternative
finder. -/
theorem C10_verdict_branch (s : SessionState) (h : s.step = 2) (w : String)
    (jr ar : Except String String) (d : WeatherDecisionState)
    (hd : d = agent_weather_decision w s.destination_city s.travel_date jr) :
    (d.decision = .str "SUITABLE" →
      (applyEvent (.step2Entry (.ok w jr ar)) s).step = 3 ∧
      (applyEvent (.step2Entry (.ok w jr ar)) s).agent_decision = some d) ∧
    (d.decision ≠ .str "SUITABLE" →
      (applyEvent (.step2Entry (.ok w jr ar)) s).step = 2 ∧
      (applyEvent (.step2Entry (.ok w jr ar)) s).agent_decision = some d ∧
      (applyEvent (.step2Entry (.ok w jr ar)) s).alternative_suggestions
        = agent_suggest_alternatives s.destination_city d.reasoning
            s.starting_city s.travel_date ar) := by
  constructor
  · intro hdec
    have hbr : pyEqStr d.decision "SUITABLE" = true := (pyEqStr_true_iff _ _).mpr hdec
    rw [hd] at hbr
    simp [applyEvent, eventStep, h, runStep2Entry, hbr, hd]
  · intro hdec
    have hbr : pyEqStr d.decision "SUITABLE" = false := by
      by_contra hx
      rw [Bool.not_eq_false] at hx
      exact hdec ((pyEqStr_true_iff _ _).mp hx)
    rw [hd] at hbr
    simp [applyEvent, eventStep, h, runStep2Entry, hbr, hd]

/-- C10 witness: a NOT_SUITABLE verdict stays in step 2 and a SUITABLE
verdict advances to step 3, at concrete responses. -/
theorem C10_verdict_branch_witness :
    (applyEvent (.step2Entry (.ok "w"
      (.ok "\x7b\"decision\": \"NOT_SUITABLE\"\x7d") (.error "e"))) sampleSession).step = 2 ∧
    (applyEvent (.step2Entry (.ok "w"
      (.ok "\x7b\"decision\": \"SUITABLE\"\x7d") (.error "e"))) sampleSession).step = 3 := by
  constructor
  · exact ((C10_verdict_branch sampleSession rfl "w"
      (.ok "\x7b\"decision\": \"NOT_SUITABLE\"\x7d") (.error "e") _ rfl).2
      (show Json.str "NOT_SUITABLE" ≠ Json.str "SUITABLE" by simp)).1
  · exact ((C10_verdict_branch sampleSession rfl "w"
      (.ok "\x7b\"decision\": \"SUITABLE\"\x7d") (.error "e") _ rfl).1
      (show Json.str "SUITABLE" = Json.str "SUITABLE" from rfl)).1

end TripPlanner
